import Mathlib

/-!
Shallow embedding of the real-time synchronization and notification core of
the openclaw-pm-dashboard backend: the socket service (`SocketService` in
`backend/src/services/socketService.ts`), the OpenClaw messaging service
(`OpenClawMessagingService` in `backend/src/services/openclawMessaging.ts`)
and the websocket rate-limit middleware (`backend/src/middleware/rateLimiter.ts`).

Conventions of the embedding:
* SQLite rows become Lean structures; the relational store becomes lists of
  rows; `db.run UPDATE ... WHERE id = ?` becomes a `List.map` that rewrites
  the matching rows, `db.get SELECT ... WHERE id = ?` becomes `List.find?`.
  Per SQLite semantics, column references inside `SET` expressions denote the
  pre-update values of the row.
* `CHECK` constraints of the schema (`backend/src/database/init.ts`) are
  modelled: an UPDATE or INSERT whose affected row would violate a constraint
  fails, which in the service lands in the surrounding `catch` block and
  emits the corresponding error envelope.
* Timestamps (`new Date()`, `datetime('now')`) are an abstract clock passed
  in as an integer parameter `now`.
* `socket.emit` / `io.emit` become an `Emit` trace returned by each handler;
  the external OpenClaw CLI invocation becomes a boolean `deliveryOk`
  parameter, and the messaging service's fallback-file state is carried in
  `MessagingState`.
* `uuidv4()` becomes an explicit `fresh` parameter.
-/

namespace PMDash

/-- A row of the `tasks` table (columns the socket service reads or writes). -/
structure TaskRow where
  id : String
  projectId : String
  title : String
  status : String
  startedAt : Option Int
  completedAt : Option Int
  metadata : String
  updatedAt : Int
deriving Repr, DecidableEq

/-- A row of the `agents` table. -/
structure AgentRow where
  id : String
  name : String
  agentType : String
  capabilities : String
  status : String
  currentTask : Option String
  socketId : Option String
  lastActivity : Int
  tasksCompleted : Nat
  averageTaskTime : ℚ
  successRate : ℚ
  errorCount : Nat
  lastTaskCompletionTime : Option Int
  createdAt : Int
  updatedAt : Int
deriving Repr, DecidableEq

/-- A row of the `projects` table (columns the socket service reads or writes). -/
structure ProjectRow where
  id : String
  name : String
  status : String
  progress : Option ℚ
  metadata : String
  updatedAt : Int
deriving Repr, DecidableEq

/-- A row of the `communications` table. -/
structure CommRow where
  id : String
  fromAgentId : Option String
  toAgentId : Option String
  ctype : String
  message : String
  metadata : String
  timestamp : Int
  read : Nat
  projectId : Option String
  taskId : Option String
deriving Repr, DecidableEq

/-- The relational store (the four tables the socket service touches). -/
structure Db where
  agents : List AgentRow
  projects : List ProjectRow
  tasks : List TaskRow
  communications : List CommRow
deriving Repr, DecidableEq

/-- `CHECK` values allowed for `tasks.status` by the schema. -/
def validTaskStatuses : List String :=
  ["pending", "assigned", "in_progress", "completed", "failed", "cancelled"]

/-- `CHECK` values allowed for `projects.status` by the schema. -/
def validProjectStatuses : List String :=
  ["planning", "active", "completed", "cancelled", "on-hold"]

/-- `CHECK` values allowed for `agents.status` by the schema. -/
def validAgentStatuses : List String :=
  ["active", "idle", "busy", "offline", "error"]

/-- `CHECK` values allowed for `agents.type` by the schema. -/
def validAgentTypes : List String :=
  ["frontend", "backend", "design", "testing", "deployment", "coordination", "analysis"]

/-- `CHECK` values allowed for `communications.type` by the schema. -/
def validCommTypes : List String :=
  ["task_assignment", "status_update", "error_report", "coordination", "notification", "user_message"]

/-- The SQLite `CHECK (progress >= 0 AND progress <= 100)` on `projects.progress`;
a NULL progress passes the check (the predicate evaluates to NULL, not false). -/
def progressCheckOk : Option ℚ → Bool
  | none => true
  | some q => decide (0 ≤ q) && decide (q ≤ 100)

/-- The serialized empty JSON object `JSON.stringify({})`. -/
def emptyJsonObject : String := "\x7b\x7d"

/-- `JSON.stringify(metadata || {})`: the payload's metadata is carried in its
serialized form; an absent metadata field serializes to the empty object. -/
def stringifyMeta : Option String → String
  | none => emptyJsonObject
  | some s => s

/-- An entry of the in-memory `connectedAgents` map (`ConnectedAgent` in the source). -/
structure ConnectedAgent where
  socketId : String
  agentId : String
  name : String
  agentType : String
  connectedAt : Int
  lastActivity : Int
deriving Repr, DecidableEq

/-- The `connectedAgents : Map<string, ConnectedAgent>` registry, keyed by
socket id, as an insertion-ordered association list (JS `Map` semantics). -/
abbrev Registry := List (String × ConnectedAgent)

/-- `Map.get`: the first (unique, for well-formed maps) entry with the key. -/
def regGet (reg : Registry) (k : String) : Option ConnectedAgent :=
  (reg.find? (fun q => q.1 = k)).map Prod.snd

/-- `Map.set`: replace the entry in place if the key is present, else append. -/
def regSet (reg : Registry) (k : String) (v : ConnectedAgent) : Registry :=
  if reg.any (fun q => q.1 = k) then
    reg.map (fun q => if q.1 = k then (k, v) else q)
  else
    reg ++ [(k, v)]

/-- A notification payload (`OpenClawNotification` in the source); the
`fallbackNotification: true` metadata marker becomes the `fallbackFlag` field. -/
structure OpenClawNotification where
  ntype : String
  title : String
  message : String
  priority : String
  fallbackFlag : Bool
deriving Repr, DecidableEq

/-- Outcome of a `notifyUser` call: skipped (notifications disabled),
delivered externally, or fell back to the local log. -/
inductive NotifyOutcome
  | skipped
  | delivered
  | fellBack
deriving Repr, DecidableEq

/-- `{...notification, metadata: {...metadata, fallbackNotification: true}}`. -/
def markFallback (n : OpenClawNotification) : OpenClawNotification :=
  { n with fallbackFlag := true }

/-- `OpenClawMessagingService.writeNotificationFile`: append the marked
notification to the log, then keep only the last 50 entries (`slice(-50)`). -/
def writeNotificationFile (log : List OpenClawNotification) (n : OpenClawNotification) :
    List OpenClawNotification :=
  let notifications := log ++ [markFallback n]
  if notifications.length > 50 then
    notifications.drop (notifications.length - 50)
  else
    notifications

/-- The messaging service's mutable state: the `enabled` flag and the contents
of the fallback file `pm-dashboard-notifications.json`. -/
structure MessagingState where
  enabled : Bool
  fallbackLog : List OpenClawNotification
deriving Repr, DecidableEq

/-- `this.enabled = process.env.OPENCLAW_NOTIFICATIONS === 'true' || true` in
the `OpenClawMessagingService` constructor. -/
def messagingEnabledInit (env : Option String) : Bool :=
  (env == some "true") || true

/-- `OpenClawMessagingService.notifyUser`: skip when disabled; otherwise attempt
external delivery (`execAsync`, abstracted as `deliveryOk`); on any failure the
exception is caught and the notification is appended to the fallback log.
The method never throws to its caller. -/
def notifyUser (ms : MessagingState) (deliveryOk : Bool) (n : OpenClawNotification) :
    MessagingState × NotifyOutcome :=
  if !ms.enabled then
    (ms, NotifyOutcome.skipped)
  else if deliveryOk then
    (ms, NotifyOutcome.delivered)
  else
    ({ ms with fallbackLog := writeNotificationFile ms.fallbackLog n }, NotifyOutcome.fellBack)

/-- The notification built by `OpenClawMessagingService.requestUserInput`. -/
def userInputNotification (context question : String) (agentName : Option String) :
    OpenClawNotification :=
  { ntype := "warning"
    title := "Input Needed" ++ (match agentName with | some nm => " - " ++ nm | none => "")
    message := "Context: " ++ context ++ "\n\nQuestion: " ++ question ++
      "\n\nPlease respond in the OpenClaw dashboard or via chat."
    priority := "high"
    fallbackFlag := false }

/-- `OpenClawMessagingService.requestUserInput`. -/
def requestUserInput (ms : MessagingState) (deliveryOk : Bool) (context question : String)
    (agentName : Option String) : MessagingState × NotifyOutcome :=
  notifyUser ms deliveryOk (userInputNotification context question agentName)

/-- The notification built by `OpenClawMessagingService.notifyTaskUpdate`. -/
def taskUpdateNotification (taskTitle status : String) (agentName : Option String) :
    OpenClawNotification :=
  { ntype := if status = "failed" then "error" else if status = "completed" then "success" else "info"
    title := "Task " ++ status ++ ": " ++ taskTitle
    message := "Task \"" ++ taskTitle ++ "\" " ++ status ++
      (match agentName with | some nm => " by " ++ nm | none => "")
    priority := if status = "failed" then "high" else "medium"
    fallbackFlag := false }

/-- `OpenClawMessagingService.notifyTaskUpdate`. -/
def notifyTaskUpdate (ms : MessagingState) (deliveryOk : Bool) (taskTitle status : String)
    (agentName : Option String) : MessagingState × NotifyOutcome :=
  notifyUser ms deliveryOk (taskUpdateNotification taskTitle status agentName)

/-- The notification built by `OpenClawMessagingService.notifyAgentStatusChange`. -/
def agentStatusNotification (agentName status : String) (details : Option String) :
    OpenClawNotification :=
  { ntype := if status = "error" then "error" else "info"
    title := "Agent Status: " ++ agentName
    message := "Agent " ++ agentName ++ " is now " ++ status ++
      (match details with | some d => ": " ++ d | none => "")
    priority := if status = "error" then "high" else "medium"
    fallbackFlag := false }

/-- `OpenClawMessagingService.notifyAgentStatusChange`. -/
def notifyAgentStatusChange (ms : MessagingState) (deliveryOk : Bool) (agentName status : String)
    (details : Option String) : MessagingState × NotifyOutcome :=
  notifyUser ms deliveryOk (agentStatusNotification agentName status details)

/-- The notification built by `OpenClawMessagingService.notifyProjectUpdate`. -/
def projectUpdateNotification (projectName status : String) (progress : Option ℚ) :
    OpenClawNotification :=
  { ntype := "info"
    title := "Project Update: " ++ projectName
    message := "Project " ++ projectName ++ " is " ++ status ++
      (match progress with | some q => " (" ++ toString q ++ "% complete)" | none => "")
    priority := if status = "completed" then "medium" else "low"
    fallbackFlag := false }

/-- `OpenClawMessagingService.notifyProjectUpdate`. -/
def notifyProjectUpdate (ms : MessagingState) (deliveryOk : Bool) (projectName status : String)
    (progress : Option ℚ) : MessagingState × NotifyOutcome :=
  notifyUser ms deliveryOk (projectUpdateNotification projectName status progress)

/-- The mutable state of `SocketService`: the store handle, the in-memory
`connectedAgents` registry and the messaging service it calls into. -/
structure ServiceState where
  db : Db
  connectedAgents : Registry
  messaging : MessagingState
deriving Repr, DecidableEq

/-- One observable output of a handler: an envelope to the originating socket
(`socket.emit` / targeted `io.to(...).emit`), a broadcast to all clients
(`io.emit`, recorded as event name, change type tag and entity id), or an
invocation of the Notification Bridge (recorded by notification title). -/
inductive Emit
  | toSocket (socketId : String) (event : String) (message : String)
  | broadcast (event : String) (changeType : String) (entityId : String)
  | notifyBridge (title : String)
deriving Repr, DecidableEq

/-- An emission of an `error` envelope to a socket. -/
def isErrorEmit : Emit → Bool
  | Emit.toSocket _ ev _ => ev = "error"
  | _ => false

/-- Payload of the `task_update` inbound event, as destructured by the handler
(`const { taskId, status, progress, metadata } = data`; `progress` is
destructured but never used by the handler). -/
structure TaskUpdatePayload where
  taskId : String
  status : String
  progress : Option ℚ
  metadata : Option String
deriving Repr, DecidableEq

/-- The SET clause of the task UPDATE. Per SQLite, the `CASE` expressions read
the pre-update column values of the row. -/
def taskUpdateRow (p : TaskUpdatePayload) (now : Int) (t : TaskRow) : TaskRow :=
  { t with
    status := p.status
    startedAt := if t.status = "in_progress" ∧ t.startedAt = none then some now else t.startedAt
    completedAt :=
      if t.status = "completed" ∨ t.status = "failed" then some now else t.completedAt
    metadata := stringifyMeta p.metadata
    updatedAt := now }

/-- The SET clause of the performance UPDATE: write the recomputed counters
into the row. -/
def performanceRow (tasksCompleted : Nat) (successRate : ℚ) (errorCount : Nat) (now : Int)
    (a : AgentRow) : AgentRow :=
  { a with
    tasksCompleted := tasksCompleted
    successRate := successRate
    errorCount := errorCount
    lastTaskCompletionTime := some now }

/-- `SocketService.updateAgentPerformance`: load the agent row; if present,
increment the completed count, recompute the running weighted success rate and
bump the error count on failure, then write the row back. -/
def updateAgentPerformance (db : Db) (agentId : String) (success : Bool) (now : Int) : Db :=
  match db.agents.find? (fun a => a.id = agentId) with
  | none => db
  | some agent =>
    let tasksCompleted : Nat := agent.tasksCompleted + 1
    let successRate : ℚ :=
      ((agent.successRate * (agent.tasksCompleted : ℚ)) + (if success then 100 else 0)) /
        (tasksCompleted : ℚ)
    let errorCount : Nat := if success then agent.errorCount else agent.errorCount + 1
    { db with agents := db.agents.map (fun a =>
        if a.id = agentId then performanceRow tasksCompleted successRate errorCount now a
        else a) }

/-- `SocketService.handleTaskUpdate`: run the UPDATE (per SQLite, the `CASE`
expressions read the pre-update `status`/`started_at`/`completed_at`; a CHECK
violation on the affected row fails the statement and lands in the catch
block), re-read the row, broadcast it, and when the caller is a registered
agent and the new status is terminal, update performance counters and notify. -/
def handleTaskUpdate (st : ServiceState) (deliveryOk : Bool) (socketId : String) (now : Int)
    (p : TaskUpdatePayload) : ServiceState × List Emit :=
  if (st.db.tasks.find? (fun t => t.id = p.taskId)).isSome &&
      !(validTaskStatuses.contains p.status) then
    (st, [Emit.toSocket socketId "error" "Failed to update task"])
  else
    let db1 : Db := { st.db with tasks := st.db.tasks.map (fun t =>
      if t.id = p.taskId then taskUpdateRow p now t else t) }
    match db1.tasks.find? (fun t => t.id = p.taskId) with
    | none => ({ st with db := db1 }, [Emit.toSocket socketId "error" "Task not found"])
    | some updatedTask =>
      match regGet st.connectedAgents socketId with
      | some ca =>
        if p.status = "completed" ∨ p.status = "failed" then
          let db2 := updateAgentPerformance db1 ca.agentId (p.status = "completed") now
          let nres := notifyTaskUpdate st.messaging deliveryOk updatedTask.title p.status (some ca.name)
          ({ st with db := db2, messaging := nres.1 },
            [Emit.broadcast "task_update" "updated" updatedTask.id,
             Emit.notifyBridge (taskUpdateNotification updatedTask.title p.status (some ca.name)).title])
        else
          ({ st with db := db1 }, [Emit.broadcast "task_update" "updated" updatedTask.id])
      | none =>
        ({ st with db := db1 }, [Emit.broadcast "task_update" "updated" updatedTask.id])

/-- Payload of the `agent_status` inbound event. -/
structure AgentStatusPayload where
  status : String
  currentTask : Option String
  errorMessage : Option String
deriving Repr, DecidableEq

/-- The SET clause of the agent-status UPDATE. -/
def agentStatusRow (p : AgentStatusPayload) (now : Int) (a : AgentRow) : AgentRow :=
  { a with status := p.status, currentTask := p.currentTask, lastActivity := now }

/-- `SocketService.handleAgentStatusUpdate`: reject unregistered sockets with
an `Agent not registered` error before any store access; otherwise apply the
UPDATE keyed by socket id, touch the registry entry, re-read and broadcast the
row, and notify on an `error` status. A missing row after the UPDATE makes
`transformAgentFromDB` throw, which the catch block converts into an error
envelope (the UPDATE and the registry touch have already happened). -/
def handleAgentStatusUpdate (st : ServiceState) (deliveryOk : Bool) (socketId : String)
    (now : Int) (p : AgentStatusPayload) : ServiceState × List Emit :=
  match regGet st.connectedAgents socketId with
  | none => (st, [Emit.toSocket socketId "error" "Agent not registered"])
  | some ca =>
    if (st.db.agents.find? (fun a => a.socketId = some socketId)).isSome &&
        !(validAgentStatuses.contains p.status) then
      (st, [Emit.toSocket socketId "error" "Failed to update agent status"])
    else
      let db1 : Db := { st.db with agents := st.db.agents.map (fun a =>
        if a.socketId = some socketId then agentStatusRow p now a else a) }
      let reg1 := regSet st.connectedAgents socketId { ca with lastActivity := now }
      match db1.agents.find? (fun a => a.socketId = some socketId) with
      | none =>
        ({ st with db := db1, connectedAgents := reg1 },
          [Emit.toSocket socketId "error" "Failed to update agent status"])
      | some updatedAgent =>
        if p.status = "error" then
          let nres := notifyAgentStatusChange st.messaging deliveryOk ca.name p.status
            (some (p.errorMessage.getD "Agent reported an error"))
          ({ st with db := db1, connectedAgents := reg1, messaging := nres.1 },
            [Emit.broadcast "agent_update" "status_updated" updatedAgent.id,
             Emit.notifyBridge (agentStatusNotification ca.name p.status none).title])
        else
          ({ st with db := db1, connectedAgents := reg1 },
            [Emit.broadcast "agent_update" "status_updated" updatedAgent.id])

/-- Payload of the `project_update` inbound event. -/
structure ProjectUpdatePayload where
  projectId : String
  status : String
  progress : Option ℚ
  metadata : Option String
deriving Repr, DecidableEq

/-- The SET clause of the project UPDATE: exactly the payload's status,
progress and serialized metadata are written. -/
def projectUpdateRow (p : ProjectUpdatePayload) (now : Int) (pr : ProjectRow) : ProjectRow :=
  { pr with
    status := p.status
    progress := p.progress
    metadata := stringifyMeta p.metadata
    updatedAt := now }

/-- `SocketService.handleProjectUpdate`: run the UPDATE writing exactly the
payload's `status`, `progress` and serialized metadata (an omitted progress
binds as NULL and passes the range CHECK), re-read the row, broadcast it, and
notify when the new status is `completed`. -/
def handleProjectUpdate (st : ServiceState) (deliveryOk : Bool) (socketId : String) (now : Int)
    (p : ProjectUpdatePayload) : ServiceState × List Emit :=
  if (st.db.projects.find? (fun pr => pr.id = p.projectId)).isSome &&
      (!(validProjectStatuses.contains p.status) || !(progressCheckOk p.progress)) then
    (st, [Emit.toSocket socketId "error" "Failed to update project"])
  else
    let db1 : Db := { st.db with projects := st.db.projects.map (fun pr =>
      if pr.id = p.projectId then projectUpdateRow p now pr else pr) }
    match db1.projects.find? (fun pr => pr.id = p.projectId) with
    | none => ({ st with db := db1 }, [Emit.toSocket socketId "error" "Project not found"])
    | some updatedProject =>
      if p.status = "completed" then
        let nres := notifyProjectUpdate st.messaging deliveryOk updatedProject.name p.status p.progress
        ({ st with db := db1, messaging := nres.1 },
          [Emit.broadcast "project_update" "updated" updatedProject.id,
           Emit.notifyBridge (projectUpdateNotification updatedProject.name p.status p.progress).title])
      else
        ({ st with db := db1 }, [Emit.broadcast "project_update" "updated" updatedProject.id])

/-- Payload of the `agent_register` inbound event; `capabilities` is carried in
its serialized form (`JSON.stringify(data.capabilities || [])`). -/
structure RegisterPayload where
  id : Option String
  name : String
  agentType : String
  capabilities : Option String
deriving Repr, DecidableEq

/-- `SocketService.handleAgentRegistration`: build the agent data (generating
an id when none is supplied), `INSERT OR REPLACE` the row — preserving the
cumulative counters and creation time via the `COALESCE` subselects, and
resetting `current_task` and `last_task_completion_time`, which the INSERT
column list omits — then `Map.set` the registry entry for this socket,
broadcast the re-read row and notify. A CHECK violation (invalid agent type)
fails the INSERT before the registry is touched. -/
def handleAgentRegistration (st : ServiceState) (deliveryOk : Bool) (socketId : String)
    (fresh : String) (now : Int) (p : RegisterPayload) : ServiceState × List Emit :=
  let aid := p.id.getD fresh
  if !(validAgentTypes.contains p.agentType) then
    (st, [Emit.toSocket socketId "registration_error" "Failed to register agent"])
  else
    let prev := st.db.agents.find? (fun a => a.id = aid)
    let newRow : AgentRow :=
      { id := aid
        name := p.name
        agentType := p.agentType
        capabilities := (p.capabilities).getD "[]"
        status := "active"
        currentTask := none
        socketId := some socketId
        lastActivity := now
        tasksCompleted := (prev.map (fun a => a.tasksCompleted)).getD 0
        averageTaskTime := (prev.map (fun a => a.averageTaskTime)).getD 0
        successRate := (prev.map (fun a => a.successRate)).getD 100
        errorCount := (prev.map (fun a => a.errorCount)).getD 0
        lastTaskCompletionTime := none
        createdAt := (prev.map (fun a => a.createdAt)).getD now
        updatedAt := now }
    let agents1 : List AgentRow :=
      if st.db.agents.any (fun a => a.id = aid) then
        st.db.agents.map (fun a => if a.id = aid then newRow else a)
      else
        st.db.agents ++ [newRow]
    let db1 : Db := { st.db with agents := agents1 }
    let reg1 := regSet st.connectedAgents socketId
      { socketId := socketId, agentId := aid, name := p.name, agentType := p.agentType,
        connectedAt := now, lastActivity := now }
    let nres := notifyAgentStatusChange st.messaging deliveryOk p.name "registered"
      (some "Agent connected and ready")
    ({ st with db := db1, connectedAgents := reg1, messaging := nres.1 },
      [Emit.broadcast "agent_update" "registered" aid,
       Emit.notifyBridge (agentStatusNotification p.name "registered" none).title])

/-- Payload of the `agent_message` inbound event. -/
structure AgentMessagePayload where
  toAgentId : Option String
  ctype : Option String
  message : String
  metadata : Option String
  projectId : Option String
  taskId : Option String
deriving Repr, DecidableEq

/-- The foreign-key constraints of the `communications` table (enforced, since
the service opens the store with `PRAGMA foreign_keys = ON`). -/
def commFkOk (db : Db) (m : CommRow) : Bool :=
  (match m.fromAgentId with | none => true | some i => db.agents.any (fun a => a.id = i)) &&
  (match m.toAgentId with | none => true | some i => db.agents.any (fun a => a.id = i)) &&
  (match m.projectId with | none => true | some i => db.projects.any (fun pr => pr.id = i)) &&
  (match m.taskId with | none => true | some i => db.tasks.any (fun t => t.id = i))

/-- `SocketService.handleAgentMessage`: reject unregistered sockets with an
`Agent not registered` error before any store access; otherwise INSERT the
communication row (a CHECK or foreign-key violation lands in the catch block),
broadcast it, and additionally deliver directly to the target agent's socket
when one is currently registered. -/
def handleAgentMessage (st : ServiceState) (socketId : String) (fresh : String) (now : Int)
    (p : AgentMessagePayload) : ServiceState × List Emit :=
  match regGet st.connectedAgents socketId with
  | none => (st, [Emit.toSocket socketId "error" "Agent not registered"])
  | some ca =>
    let msg : CommRow :=
      { id := fresh
        fromAgentId := some ca.agentId
        toAgentId := p.toAgentId
        ctype := (p.ctype).getD "coordination"
        message := p.message
        metadata := stringifyMeta p.metadata
        timestamp := now
        read := 0
        projectId := p.projectId
        taskId := p.taskId }
    if !(validCommTypes.contains msg.ctype) || !(commFkOk st.db msg) then
      (st, [Emit.toSocket socketId "error" "Failed to send message"])
    else
      let db1 : Db := { st.db with communications := st.db.communications ++ [msg] }
      let targetSocket := (p.toAgentId.bind (fun target =>
        (st.connectedAgents.find? (fun q => q.2.agentId = target)).map Prod.fst))
      match targetSocket with
      | some ts =>
        ({ st with db := db1 },
          [Emit.broadcast "agent_message" "new" msg.id,
           Emit.toSocket ts "direct_message" msg.id])
      | none =>
        ({ st with db := db1 }, [Emit.broadcast "agent_message" "new" msg.id])

/-- Payload of the `request_user_input` inbound event. -/
structure UserInputPayload where
  context : Option String
  question : Option String
deriving Repr, DecidableEq

/-- `SocketService.handleUserInputRequest`: reject unregistered sockets with an
`Agent not registered` error; otherwise invoke the messaging service (which
never throws) and broadcast the `user_input_request` envelope. No store access. -/
def handleUserInputRequest (st : ServiceState) (deliveryOk : Bool) (socketId : String)
    (p : UserInputPayload) : ServiceState × List Emit :=
  match regGet st.connectedAgents socketId with
  | none => (st, [Emit.toSocket socketId "error" "Agent not registered"])
  | some ca =>
    let nres := requestUserInput st.messaging deliveryOk
      ((p.context).getD "Agent needs input")
      ((p.question).getD "Please provide guidance")
      (some ca.name)
    ({ st with messaging := nres.1 },
      [Emit.notifyBridge (userInputNotification ((p.context).getD "Agent needs input")
          ((p.question).getD "Please provide guidance") (some ca.name)).title,
       Emit.broadcast "user_input_request" "" ca.agentId])

/-- `5 * 60 * 1000` milliseconds, the `staleThreshold` of `cleanupStaleConnections`. -/
def staleThreshold : Int := 5 * 60 * 1000

/-- `SocketService.cleanupStaleConnections`: delete from the in-memory
`connectedAgents` map every entry whose time since last activity exceeds the
stale threshold. The method touches nothing else: no store write, no
broadcast, no Notification Bridge call. -/
def cleanupStaleConnections (st : ServiceState) (now : Int) : ServiceState × List Emit :=
  ({ st with connectedAgents := st.connectedAgents.filter (fun q =>
      decide (¬ (now - q.2.lastActivity > staleThreshold))) }, [])

/-- A value inside an emitted JSON payload: a string, a `new Date()` timestamp,
or a number. -/
inductive PayloadVal
  | str (s : String)
  | timeVal (t : Int)
  | num (q : ℚ)
deriving Repr, DecidableEq

/-- `websocketRateLimiter` in `middleware/rateLimiter.ts`: `consume` the
limiter for the key and return `true`; on rejection return `false` — the
rejection object's `msBeforeNext` is discarded, so the caller receives a bare
boolean with no retry-after information. -/
def websocketRateLimiter (consumeOk : Bool) : Bool :=
  if consumeOk then true else false

/-- The payload of the `rate_limit_exceeded` envelope emitted by the
`socket.use` middleware in `SocketService.setupEventHandlers`. -/
def rateLimitExceededPayload (now : Int) : List (String × PayloadVal) :=
  [("message", PayloadVal.str "Rate limit exceeded. Please slow down your requests."),
   ("timestamp", PayloadVal.timeVal now)]

/-- Result of the per-packet `socket.use` middleware: pass the packet on, or
emit a rejection envelope and stop. -/
inductive MiddlewareResult
  | next
  | emitOnly (event : String) (payload : List (String × PayloadVal))
deriving Repr, DecidableEq

/-- The `socket.use` rate-limit middleware: when `websocketRateLimiter` allows,
call `next()`; otherwise emit `rate_limit_exceeded` with a fixed message and a
timestamp. -/
def socketUseRateLimit (canProceed : Bool) (now : Int) : MiddlewareResult :=
  if canProceed then MiddlewareResult.next
  else MiddlewareResult.emitOnly "rate_limit_exceeded" (rateLimitExceededPayload now)

/-- A payload value that is a positive number, i.e. a concrete positive
retry-after duration as the spec requires the rejection envelope to carry. -/
def isPositiveDurationVal : PayloadVal → Bool
  | PayloadVal.num q => decide (0 < q)
  | _ => false

/-! ### Helper lemmas -/

/-- A keyed in-place rewrite (`UPDATE ... WHERE`) commutes with the keyed
lookup (`SELECT ... WHERE`): if the lookup found `a`, after the rewrite it
finds the rewritten `a`, provided the rewrite preserves the key. -/
theorem find?_map_ite {α : Type} (q : α → Prop) [DecidablePred q] (g : α → α)
    (hg : ∀ x, q x → q (g x)) :
    ∀ (l : List α) (a : α),
      l.find? (fun x => q x) = some a →
      (l.map (fun x => if q x then g x else x)).find? (fun x => q x) = some (g a) := by
  intro l
  induction l with
  | nil => intro a h; simp at h
  | cons y ys ih =>
    intro a h
    by_cases hy : q y
    · rw [List.find?_cons_of_pos _ (by simpa using hy)] at h
      cases h
      simp only [List.map_cons, if_pos hy]
      rw [List.find?_cons_of_pos _ (by simpa using hg y hy)]
    · rw [List.find?_cons_of_neg _ (by simpa using hy)] at h
      simp only [List.map_cons, if_neg hy]
      rw [List.find?_cons_of_neg _ (by simpa using hy)]
      exact ih a h

/-- A keyed in-place rewrite leaves the `find?` result's key fact intact. -/
theorem find?_prop {α : Type} (q : α → Prop) [DecidablePred q] {l : List α} {a : α}
    (h : l.find? (fun x => q x) = some a) : q a := by
  have := List.find?_some h
  simpa using this

/-- `Map.set` on a present key rewrites every entry with that key in place. -/
theorem find?_regSet_present (k : String) (v : ConnectedAgent) :
    ∀ (reg : Registry), reg.any (fun q => q.1 = k) = true →
      (reg.map (fun q => if q.1 = k then (k, v) else q)).find? (fun q => q.1 = k) = some (k, v) := by
  intro reg
  induction reg with
  | nil => intro h; simp at h
  | cons y ys ih =>
    intro h
    by_cases hy : y.1 = k
    · simp only [List.map_cons, if_pos hy]
      rw [List.find?_cons_of_pos _ (by simp)]
    · simp only [List.map_cons, if_neg hy]
      rw [List.find?_cons_of_neg _ (by simpa using hy)]
      refine ih ?_
      simpa [List.any_cons, hy] using h

/-- `Map.set` on an absent key appends the new entry, which the lookup finds. -/
theorem find?_regSet_absent (k : String) (v : ConnectedAgent) :
    ∀ (reg : Registry), reg.any (fun q => q.1 = k) = false →
      (reg ++ [(k, v)]).find? (fun q => q.1 = k) = some (k, v) := by
  intro reg
  induction reg with
  | nil =>
    intro _
    simp only [List.nil_append]
    rw [List.find?_cons_of_pos _ (by simp)]
  | cons y ys ih =>
    intro h
    have hy : ¬ (y.1 = k) := by
      intro hk
      simp [List.any_cons, hk] at h
    simp only [List.cons_append]
    rw [List.find?_cons_of_neg _ (by simpa using hy)]
    refine ih ?_
    simpa [List.any_cons, hy] using h

/-- `Map.get` after `Map.set` with the same key yields the new value. -/
theorem regGet_regSet_self (reg : Registry) (k : String) (v : ConnectedAgent) :
    regGet (regSet reg k v) k = some v := by
  unfold regGet regSet
  by_cases h : reg.any (fun q => q.1 = k)
  · rw [if_pos h, find?_regSet_present k v reg h]
    rfl
  · rw [if_neg h, find?_regSet_absent k v reg (Bool.eq_false_iff.mpr h)]
    rfl

/-- The keys of the registry after `Map.set`: unchanged when the key was
present, the key appended when it was absent. -/
theorem regSet_map_fst (reg : Registry) (k : String) (v : ConnectedAgent) :
    (regSet reg k v).map Prod.fst =
      if reg.any (fun q => q.1 = k) then reg.map Prod.fst else reg.map Prod.fst ++ [k] := by
  unfold regSet
  by_cases h : reg.any (fun q => q.1 = k)
  · rw [if_pos h, if_pos h, List.map_map]
    refine List.map_congr_left ?_
    intro a _
    by_cases ha : a.1 = k
    · simp [Function.comp, ha]
    · simp [Function.comp, ha]
  · rw [if_neg h, if_neg h, List.map_append]
    rfl

/-- `Map.set` keeps registry keys unique: one binding per socket id. -/
theorem regSet_keys_nodup (reg : Registry) (k : String) (v : ConnectedAgent)
    (h : (reg.map Prod.fst).Nodup) : ((regSet reg k v).map Prod.fst).Nodup := by
  rw [regSet_map_fst]
  by_cases hk : reg.any (fun q => q.1 = k)
  · rwa [if_pos hk]
  · rw [if_neg hk]
    refine List.Nodup.append h (List.nodup_singleton k) ?_
    intro a ha hb
    simp only [List.mem_singleton] at hb
    simp only [List.mem_map] at ha
    obtain ⟨q, hq, hqa⟩ := ha
    exact hk (List.any_eq_true.mpr ⟨q, hq, by simpa using hqa.trans hb⟩)

/-- The bounded fallback log: appending when at most 50 entries are present
keeps exactly the newest `min (len + 1) 50` entries, oldest dropped first. -/
theorem writeNotificationFile_spec (log : List OpenClawNotification) (n : OpenClawNotification)
    (h : log.length ≤ 50) :
    writeNotificationFile log n = log.drop (log.length + 1 - 50) ++ [markFallback n] ∧
    (writeNotificationFile log n).length = min (log.length + 1) 50 := by
  unfold writeNotificationFile
  have hlen : (log ++ [markFallback n]).length = log.length + 1 := by
    simp
  by_cases h51 : (log ++ [markFallback n]).length > 50
  · rw [if_pos (by simpa using h51)]
    have hl50 : log.length = 50 := by omega
    constructor
    · rw [hlen, List.drop_append_of_le_length (by omega)]
    · rw [List.length_drop]
      omega
  · rw [if_neg (by simpa using h51)]
    have hz : log.length + 1 - 50 = 0 := by omega
    constructor
    · rw [hz, List.drop_zero]
    · omega

/-- `updateAgentPerformance` touches only the `agents` table. -/
theorem updateAgentPerformance_tasks (db : Db) (aid : String) (s : Bool) (now : Int) :
    (updateAgentPerformance db aid s now).tasks = db.tasks := by
  unfold updateAgentPerformance
  split <;> rfl

/-! ### Claim theorems -/

/-- C10: for every value of the `OPENCLAW_NOTIFICATIONS` environment variable
(including `'false'` or unset), the messaging service's `enabled` flag
initializes to `true`, because it is computed as `env === 'true' || true`;
hence `notifyUser`'s notifications-disabled early return is unreachable and
external delivery is always attempted. -/
theorem notifications_always_enabled :
    ∀ (env : Option String), messagingEnabledInit env = true ∧
      ∀ (log : List OpenClawNotification) (deliveryOk : Bool) (n : OpenClawNotification),
        (notifyUser { enabled := messagingEnabledInit env, fallbackLog := log } deliveryOk n).2 ≠
          NotifyOutcome.skipped := by
  intro env
  constructor
  · simp [messagingEnabledInit]
  · intro log deliveryOk n
    simp only [notifyUser, messagingEnabledInit, Bool.or_true, Bool.not_true]
    cases deliveryOk <;> simp

/-- C5 counterexample: a rejected socket event gets the `rate_limit_exceeded`
envelope whose payload holds only a fixed message string and a timestamp — no
entry is a positive retry-after duration, because `websocketRateLimiter`
returns a bare boolean. -/
theorem rateLimit_no_retry_after_counterexample :
    socketUseRateLimit (websocketRateLimiter false) 0 =
      MiddlewareResult.emitOnly "rate_limit_exceeded" (rateLimitExceededPayload 0) ∧
    (rateLimitExceededPayload 0).all (fun kv => !isPositiveDurationVal kv.2) = true := by
  exact ⟨rfl, rfl⟩

/-- C5 amended: for every socket event rejected by the rate limiter, the
rejection envelope carries only a fixed message string and a timestamp; the
limiter result is a bare boolean and no retry-after duration is reported. -/
theorem rateLimit_rejection_bare_payload (consumeOk : Bool) (now : Int) :
    websocketRateLimiter consumeOk = consumeOk ∧
    socketUseRateLimit false now =
      MiddlewareResult.emitOnly "rate_limit_exceeded"
        [("message", PayloadVal.str "Rate limit exceeded. Please slow down your requests."),
         ("timestamp", PayloadVal.timeVal now)] ∧
    (rateLimitExceededPayload now).all (fun kv => !isPositiveDurationVal kv.2) = true := by
  refine ⟨?_, rfl, rfl⟩
  cases consumeOk <;> rfl

/-- The agent row and service state used to exercise the stale-connection
reaper: one agent, bound and marked active, silent since time 0. -/
def staleAgentRow : AgentRow :=
  { id := "a1", name := "Alpha", agentType := "backend", capabilities := "[]",
    status := "active", currentTask := none, socketId := some "s1", lastActivity := 0,
    tasksCompleted := 0, averageTaskTime := 0, successRate := 100, errorCount := 0,
    lastTaskCompletionTime := none, createdAt := 0, updatedAt := 0 }

/-- The registry binding of `staleAgentRow`, silent since time 0. -/
def staleCA : ConnectedAgent :=
  { socketId := "s1", agentId := "a1", name := "Alpha", agentType := "backend",
    connectedAt := 0, lastActivity := 0 }

/-- Service state with the single stale bound agent of `staleAgentRow`. -/
def staleState : ServiceState :=
  { db := { agents := [staleAgentRow], projects := [], tasks := [], communications := [] },
    connectedAgents := [("s1", staleCA)],
    messaging := { enabled := true, fallbackLog := [] } }

/-- C2 counterexample: sweeping a registry whose only binding has been silent
for over 5 minutes removes the binding, but the Agent row keeps status
`active` (it is not marked offline), and the sweep emits no fan-out and no
Notification Bridge call. -/
theorem cleanup_leaves_agent_row_counterexample :
    (cleanupStaleConnections staleState 301000).1.connectedAgents = [] ∧
    ((cleanupStaleConnections staleState 301000).1.db.agents.find?
        (fun a => a.id = "a1")).map AgentRow.status = some "active" ∧
    ((cleanupStaleConnections staleState 301000).1.db.agents.find?
        (fun a => a.id = "a1")).map AgentRow.status ≠ some "offline" ∧
    (cleanupStaleConnections staleState 301000).2 = [] := by
  refine ⟨rfl, rfl, ?_, rfl⟩
  decide

/-- C2 amended: a reaper sweep removes every binding whose inactivity exceeds
the 5-minute threshold from the in-memory registry and does nothing else: the
store is not written (no Agent row marked offline), no fan-out and no
Notification Bridge call is emitted, and a repeated sweep changes nothing. -/
theorem cleanup_registry_only (st : ServiceState) (now : Int) (sid : String) (ca : ConnectedAgent)
    (hmem : (sid, ca) ∈ st.connectedAgents)
    (hstale : now - ca.lastActivity > staleThreshold) :
    (cleanupStaleConnections st now).2 = [] ∧
    (cleanupStaleConnections st now).1.db = st.db ∧
    (cleanupStaleConnections st now).1.messaging = st.messaging ∧
    (sid, ca) ∉ (cleanupStaleConnections st now).1.connectedAgents ∧
    cleanupStaleConnections (cleanupStaleConnections st now).1 now =
      cleanupStaleConnections st now := by
  refine ⟨rfl, rfl, rfl, ?_, ?_⟩
  · intro hmem'
    unfold cleanupStaleConnections at hmem'
    simp only [List.mem_filter, decide_eq_true_eq] at hmem'
    exact hmem'.2 hstale
  · unfold cleanupStaleConnections
    have hfil : ∀ (l : Registry),
        (l.filter (fun q => decide (¬ (now - q.2.lastActivity > staleThreshold)))).filter
          (fun q => decide (¬ (now - q.2.lastActivity > staleThreshold))) =
        l.filter (fun q => decide (¬ (now - q.2.lastActivity > staleThreshold))) := by
      intro l
      exact List.filter_eq_self.mpr (fun a ha => (List.mem_filter.mp ha).2)
    rw [hfil]

/-- C2 witness. -/
theorem cleanup_registry_only_witness :
    ("s1", staleCA) ∈ staleState.connectedAgents ∧
    (301000 : Int) - staleCA.lastActivity > staleThreshold ∧
    ((cleanupStaleConnections staleState 301000).2 = [] ∧
     (cleanupStaleConnections staleState 301000).1.db = staleState.db ∧
     (cleanupStaleConnections staleState 301000).1.messaging = staleState.messaging ∧
     ("s1", staleCA) ∉ (cleanupStaleConnections staleState 301000).1.connectedAgents ∧
     cleanupStaleConnections (cleanupStaleConnections staleState 301000).1 301000 =
        cleanupStaleConnections staleState 301000) :=
  ⟨by decide, by decide,
    cleanup_registry_only staleState 301000 "s1" staleCA (by decide) (by decide)⟩

/-- A task row already in the terminal status `completed`. -/
def terminalTask : TaskRow :=
  { id := "t1", projectId := "p1", title := "Build", status := "completed",
    startedAt := some 1, completedAt := some 2, metadata := emptyJsonObject,
    updatedAt := 2 }

/-- A store holding one task that is already in the terminal status
`completed`, with no registered agents. -/
def terminalTaskState : ServiceState :=
  { db := { agents := [], projects := [], communications := [], tasks := [terminalTask] },
    connectedAgents := [],
    messaging := { enabled := true, fallbackLog := [] } }

/-- C1 counterexample: a `task_update` event that moves the stored task `t1`
out of the terminal status `completed` is applied — the stored status becomes
`in_progress`, no error envelope of any kind (in particular no
InvalidTransition) is sent to the caller, and the changed row is fanned out. -/
theorem taskUpdate_terminal_counterexample :
    (((handleTaskUpdate terminalTaskState true "s1" 10
        { taskId := "t1", status := "in_progress", progress := none, metadata := none }).1.db.tasks.find?
        (fun t => t.id = "t1")).map TaskRow.status) = some "in_progress" ∧
    (handleTaskUpdate terminalTaskState true "s1" 10
        { taskId := "t1", status := "in_progress", progress := none, metadata := none }).2 =
      [Emit.broadcast "task_update" "updated" "t1"] := by
  exact ⟨by decide, by decide⟩

/-- C1 amended: `handleTaskUpdate` enforces no terminal-state invariant — a
`task-update` whose status value passes the schema CHECK is applied to a task
in a terminal stored status (`completed`/`failed`/`cancelled`) like any other:
the stored status is overwritten with the event's status, the changed row is
fanned out, and no error (there is no InvalidTransition) reaches the caller. -/
theorem taskUpdate_applies_to_terminal
    (st : ServiceState) (deliveryOk : Bool) (socketId : String) (now : Int)
    (p : TaskUpdatePayload) (t0 : TaskRow)
    (hfind : st.db.tasks.find? (fun t => t.id = p.taskId) = some t0)
    (hterm : t0.status = "completed" ∨ t0.status = "failed" ∨ t0.status = "cancelled")
    (hvalid : validTaskStatuses.contains p.status = true) :
    (((handleTaskUpdate st deliveryOk socketId now p).1.db.tasks.find?
        (fun t => t.id = p.taskId)).map TaskRow.status) = some p.status ∧
    Emit.broadcast "task_update" "updated" p.taskId ∈
      (handleTaskUpdate st deliveryOk socketId now p).2 ∧
    ((handleTaskUpdate st deliveryOk socketId now p).2.filter isErrorEmit) = [] := by
  have hid : t0.id = p.taskId := find?_prop (fun t : TaskRow => t.id = p.taskId) hfind
  have hmap := find?_map_ite (fun t : TaskRow => t.id = p.taskId) (taskUpdateRow p now)
      (fun x hx => hx) st.db.tasks t0 hfind
  have hrowid : (taskUpdateRow p now t0).id = p.taskId := hid
  have hrowst : (taskUpdateRow p now t0).status = p.status := rfl
  unfold handleTaskUpdate
  rw [hfind, hvalid]
  simp only [Option.isSome_some, Bool.not_true, Bool.and_false, Bool.false_eq_true, if_false]
  rw [hmap]
  simp only []
  rcases hreg : regGet st.connectedAgents socketId with _ | ca
  · simp only [hreg]
    refine ⟨?_, ?_, ?_⟩
    · rw [hmap]
      simpa using hrowst
    · rw [hrowid]; exact List.mem_singleton.mpr rfl
    · rfl
  · simp only [hreg]
    by_cases hst : p.status = "completed" ∨ p.status = "failed"
    · rw [if_pos hst]
      refine ⟨?_, ?_, ?_⟩
      · have htasks : (updateAgentPerformance
            { st.db with tasks := st.db.tasks.map (fun t =>
                if t.id = p.taskId then taskUpdateRow p now t else t) }
            ca.agentId (p.status = "completed") now).tasks =
            st.db.tasks.map (fun t => if t.id = p.taskId then taskUpdateRow p now t else t) :=
          updateAgentPerformance_tasks _ _ _ _
        rw [htasks, hmap]
        simpa using hrowst
      · rw [hrowid]; exact List.mem_cons_self _ _
      · rfl
    · rw [if_neg hst]
      refine ⟨?_, ?_, ?_⟩
      · rw [hmap]
        simpa using hrowst
      · rw [hrowid]; exact List.mem_singleton.mpr rfl
      · rfl

/-- C1 witness. -/
theorem taskUpdate_applies_to_terminal_witness :
    terminalTaskState.db.tasks.find? (fun t => t.id = "t1") = some terminalTask ∧
    terminalTask.status = "completed" ∧
    validTaskStatuses.contains "in_progress" = true ∧
    ((((handleTaskUpdate terminalTaskState false "s1" 10
        { taskId := "t1", status := "in_progress", progress := none, metadata := none }).1.db.tasks.find?
        (fun t => t.id = "t1")).map TaskRow.status) = some "in_progress" ∧
     Emit.broadcast "task_update" "updated" "t1" ∈
       (handleTaskUpdate terminalTaskState false "s1" 10
        { taskId := "t1", status := "in_progress", progress := none, metadata := none }).2 ∧
     ((handleTaskUpdate terminalTaskState false "s1" 10
        { taskId := "t1", status := "in_progress", progress := none, metadata := none }).2.filter
        isErrorEmit) = []) :=
  ⟨by decide, by decide, by decide,
    taskUpdate_applies_to_terminal terminalTaskState false "s1" 10
      { taskId := "t1", status := "in_progress", progress := none, metadata := none }
      terminalTask (by decide) (Or.inl (by decide)) (by decide)⟩

/-- C9: for every `task-update` whose payload omits the metadata field, the
handler overwrites the stored task's metadata column with the serialized empty
object; previously stored metadata survives only if the caller resupplies it. -/
theorem taskUpdate_overwrites_metadata
    (st : ServiceState) (deliveryOk : Bool) (socketId : String) (now : Int)
    (p : TaskUpdatePayload) (t0 : TaskRow)
    (hfind : st.db.tasks.find? (fun t => t.id = p.taskId) = some t0)
    (hmeta : p.metadata = none)
    (hvalid : validTaskStatuses.contains p.status = true) :
    (((handleTaskUpdate st deliveryOk socketId now p).1.db.tasks.find?
        (fun t => t.id = p.taskId)).map TaskRow.metadata) = some emptyJsonObject := by
  have hmap := find?_map_ite (fun t : TaskRow => t.id = p.taskId) (taskUpdateRow p now)
      (fun x hx => hx) st.db.tasks t0 hfind
  have hrowmeta : (taskUpdateRow p now t0).metadata = emptyJsonObject := by
    simp [taskUpdateRow, hmeta, stringifyMeta]
  unfold handleTaskUpdate
  rw [hfind, hvalid]
  simp only [Option.isSome_some, Bool.not_true, Bool.and_false, Bool.false_eq_true, if_false]
  rw [hmap]
  rcases hreg : regGet st.connectedAgents socketId with _ | ca
  · simp only [hreg]
    rw [hmap]
    simpa using hrowmeta
  · simp only [hreg]
    by_cases hst : p.status = "completed" ∨ p.status = "failed"
    · rw [if_pos hst]
      rw [updateAgentPerformance_tasks, hmap]
      simpa using hrowmeta
    · rw [if_neg hst]
      rw [hmap]
      simpa using hrowmeta

/-- C9 witness: the stored metadata of the fixture task is overwritten with
the empty object by an update that omits metadata. -/
theorem taskUpdate_overwrites_metadata_witness :
    terminalTaskState.db.tasks.find? (fun t => t.id = "t1") = some terminalTask ∧
    ({ taskId := "t1", status := "in_progress", progress := none,
        metadata := none : TaskUpdatePayload }).metadata = none ∧
    validTaskStatuses.contains "in_progress" = true ∧
    (((handleTaskUpdate terminalTaskState true "s2" 20
        { taskId := "t1", status := "in_progress", progress := none, metadata := none }).1.db.tasks.find?
        (fun t => t.id = "t1")).map TaskRow.metadata) = some emptyJsonObject :=
  ⟨by decide, by decide, by decide,
    taskUpdate_overwrites_metadata terminalTaskState true "s2" 20
      { taskId := "t1", status := "in_progress", progress := none, metadata := none }
      terminalTask (by decide) (by decide) (by decide)⟩

/-- The performance UPDATE, specified against the found row: completed-count
incremented, success rate recomputed as the weighted running average, error
count incremented exactly on failure, completion time stamped. -/
theorem updateAgentPerformance_spec (db : Db) (aid : String) (success : Bool) (now : Int)
    (a0 : AgentRow) (hagent : db.agents.find? (fun a => a.id = aid) = some a0) :
    (updateAgentPerformance db aid success now).agents.find? (fun a => a.id = aid) =
      some { a0 with
        tasksCompleted := a0.tasksCompleted + 1
        successRate := (a0.successRate * (a0.tasksCompleted : ℚ) +
          (if success then 100 else 0)) / (((a0.tasksCompleted + 1 : ℕ)) : ℚ)
        errorCount := if success then a0.errorCount else a0.errorCount + 1
        lastTaskCompletionTime := some now } := by
  have hmapa := find?_map_ite (fun a : AgentRow => a.id = aid)
      (performanceRow (a0.tasksCompleted + 1)
        ((a0.successRate * (a0.tasksCompleted : ℚ) + (if success then 100 else 0)) /
          (((a0.tasksCompleted + 1 : ℕ)) : ℚ))
        (if success then a0.errorCount else a0.errorCount + 1) now)
      (fun x hx => hx) db.agents a0 hagent
  unfold updateAgentPerformance
  rw [hagent]
  simp only []
  rw [hmapa]
  rfl

/-- C7: a `task-update` that moves a task into `completed` or `failed` on
behalf of a bound agent updates the acting agent's cumulative counters as
specified: completed-count incremented by one, success rate recomputed as the
weighted running average with weight 100 on success and 0 on failure, and
error count incremented exactly when the task failed. -/
theorem taskUpdate_performance_counters
    (st : ServiceState) (deliveryOk : Bool) (socketId : String) (now : Int)
    (p : TaskUpdatePayload) (t0 : TaskRow) (ca : ConnectedAgent) (a0 : AgentRow)
    (hfind : st.db.tasks.find? (fun t => t.id = p.taskId) = some t0)
    (hreg : regGet st.connectedAgents socketId = some ca)
    (hst : p.status = "completed" ∨ p.status = "failed")
    (hagent : st.db.agents.find? (fun a => a.id = ca.agentId) = some a0) :
    ((handleTaskUpdate st deliveryOk socketId now p).1.db.agents.find?
        (fun a => a.id = ca.agentId)) =
      some { a0 with
        tasksCompleted := a0.tasksCompleted + 1
        successRate := (a0.successRate * (a0.tasksCompleted : ℚ) +
          (if p.status = "completed" then 100 else 0)) / ((a0.tasksCompleted : ℚ) + 1)
        errorCount := if p.status = "failed" then a0.errorCount + 1 else a0.errorCount
        lastTaskCompletionTime := some now } := by
  have hvalid : validTaskStatuses.contains p.status = true := by
    rcases hst with h | h <;> simp [h, validTaskStatuses]
  have hmapt := find?_map_ite (fun t : TaskRow => t.id = p.taskId) (taskUpdateRow p now)
      (fun x hx => hx) st.db.tasks t0 hfind
  unfold handleTaskUpdate
  rw [hfind, hvalid]
  simp only [Option.isSome_some, Bool.not_true, Bool.and_false, Bool.false_eq_true, if_false]
  rw [hmapt]
  simp only [hreg]
  rw [if_pos hst]
  dsimp only
  have hagent2 : (Db.mk st.db.agents st.db.projects
      (st.db.tasks.map (fun t => if t.id = p.taskId then taskUpdateRow p now t else t))
      st.db.communications).agents.find? (fun a => a.id = ca.agentId) = some a0 := hagent
  rw [updateAgentPerformance_spec _ _ _ _ a0 hagent2]
  rcases hst with h | h
  · rw [h]
    simp [AgentRow.mk.injEq, Nat.cast_add, Nat.cast_one]
  · rw [h]
    simp [AgentRow.mk.injEq, Nat.cast_add, Nat.cast_one]

/-- Fixture for C7: one pending task, one registered agent with three
completed tasks, a 75% success rate and one prior error. -/
def perfAgentRow : AgentRow :=
  { id := "a7", name := "Worker", agentType := "backend", capabilities := "[]",
    status := "busy", currentTask := some "t7", socketId := some "s7", lastActivity := 5,
    tasksCompleted := 3, averageTaskTime := 0, successRate := 75, errorCount := 1,
    lastTaskCompletionTime := none, createdAt := 0, updatedAt := 5 }

/-- The task the fixture agent is completing. -/
def perfTask : TaskRow :=
  { id := "t7", projectId := "p7", title := "Ship", status := "in_progress",
    startedAt := some 3, completedAt := none, metadata := emptyJsonObject, updatedAt := 3 }

/-- The registry binding of the fixture agent. -/
def perfCA : ConnectedAgent :=
  { socketId := "s7", agentId := "a7", name := "Worker", agentType := "backend",
    connectedAt := 0, lastActivity := 5 }

/-- Service state for the C7 witness. -/
def perfState : ServiceState :=
  { db := { agents := [perfAgentRow], projects := [], tasks := [perfTask], communications := [] },
    connectedAgents := [("s7", perfCA)],
    messaging := { enabled := true, fallbackLog := [] } }

/-- C7 witness: completing the task moves the agent from 3 completed / 75%
success / 1 error to 4 completed / (75*3+100)/4 success / 1 error. -/
theorem taskUpdate_performance_counters_witness :
    perfState.db.tasks.find? (fun t => t.id = "t7") = some perfTask ∧
    regGet perfState.connectedAgents "s7" = some perfCA ∧
    ("completed" = "completed" ∨ ("completed" : String) = "failed") ∧
    perfState.db.agents.find? (fun a => a.id = perfCA.agentId) = some perfAgentRow ∧
    ((handleTaskUpdate perfState true "s7" 9
        { taskId := "t7", status := "completed", progress := none, metadata := none }).1.db.agents.find?
        (fun a => a.id = perfCA.agentId)) =
      some { perfAgentRow with
        tasksCompleted := perfAgentRow.tasksCompleted + 1
        successRate := (perfAgentRow.successRate * (perfAgentRow.tasksCompleted : ℚ) +
          (if ("completed" : String) = "completed" then 100 else 0)) /
          ((perfAgentRow.tasksCompleted : ℚ) + 1)
        errorCount := if ("completed" : String) = "failed" then perfAgentRow.errorCount + 1
          else perfAgentRow.errorCount
        lastTaskCompletionTime := some 9 } :=
  ⟨by decide, by decide, Or.inl rfl, by decide,
    taskUpdate_performance_counters perfState true "s7" 9
      { taskId := "t7", status := "completed", progress := none, metadata := none }
      perfTask perfCA perfAgentRow (by decide) (by decide) (Or.inl rfl) (by decide)⟩

/-- A pending task whose update will come from a connection that never
registered an identity. -/
def unboundTask : TaskRow :=
  { id := "t9", projectId := "p9", title := "Job", status := "pending",
    startedAt := none, completedAt := none, metadata := emptyJsonObject, updatedAt := 0 }

/-- Service state with one task and an empty connection registry. -/
def unboundState : ServiceState :=
  { db := { agents := [], projects := [], tasks := [unboundTask], communications := [] },
    connectedAgents := [],
    messaging := { enabled := true, fallbackLog := [] } }

/-- C6 counterexample: a `task_update` from a connection with no bound
identity is applied to the store (status becomes `in_progress`) and broadcast;
no identity-required error is returned. -/
theorem unbound_taskUpdate_applies_counterexample :
    regGet unboundState.connectedAgents "s9" = none ∧
    (((handleTaskUpdate unboundState true "s9" 5
        { taskId := "t9", status := "in_progress", progress := none, metadata := none }).1.db.tasks.find?
        (fun t => t.id = "t9")).map TaskRow.status) = some "in_progress" ∧
    (handleTaskUpdate unboundState true "s9" 5
        { taskId := "t9", status := "in_progress", progress := none, metadata := none }).2 =
      [Emit.broadcast "task_update" "updated" "t9"] := by
  refine ⟨by decide, by decide, by decide⟩

/-- C6 amended: of the identity-scoped events, `agent_status`, `agent_message`
and `request_user_input` from an unbound connection are rejected with an
`Agent not registered` error and change no state, but `task_update` performs
no identity check: it is applied to the store and fanned out. -/
theorem unbound_identity_scoped_events
    (st : ServiceState) (deliveryOk : Bool) (socketId : String) (fresh : String) (now : Int)
    (ps : AgentStatusPayload) (pm : AgentMessagePayload) (pu : UserInputPayload)
    (pt : TaskUpdatePayload) (t0 : TaskRow)
    (hreg : regGet st.connectedAgents socketId = none)
    (hfind : st.db.tasks.find? (fun t => t.id = pt.taskId) = some t0)
    (hvalid : validTaskStatuses.contains pt.status = true) :
    handleAgentStatusUpdate st deliveryOk socketId now ps =
      (st, [Emit.toSocket socketId "error" "Agent not registered"]) ∧
    handleAgentMessage st socketId fresh now pm =
      (st, [Emit.toSocket socketId "error" "Agent not registered"]) ∧
    handleUserInputRequest st deliveryOk socketId pu =
      (st, [Emit.toSocket socketId "error" "Agent not registered"]) ∧
    (((handleTaskUpdate st deliveryOk socketId now pt).1.db.tasks.find?
        (fun t => t.id = pt.taskId)).map TaskRow.status) = some pt.status ∧
    (handleTaskUpdate st deliveryOk socketId now pt).2 =
      [Emit.broadcast "task_update" "updated" pt.taskId] := by
  have hid : t0.id = pt.taskId := find?_prop (fun t : TaskRow => t.id = pt.taskId) hfind
  have hmap := find?_map_ite (fun t : TaskRow => t.id = pt.taskId) (taskUpdateRow pt now)
      (fun x hx => hx) st.db.tasks t0 hfind
  refine ⟨?_, ?_, ?_, ?_, ?_⟩
  · unfold handleAgentStatusUpdate
    rw [hreg]
  · unfold handleAgentMessage
    rw [hreg]
  · unfold handleUserInputRequest
    rw [hreg]
  · unfold handleTaskUpdate
    rw [hfind, hvalid]
    simp only [Option.isSome_some, Bool.not_true, Bool.and_false, Bool.false_eq_true, if_false]
    rw [hmap]
    simp only [hreg]
    rw [hmap]
    simp [taskUpdateRow]
  · unfold handleTaskUpdate
    rw [hfind, hvalid]
    simp only [Option.isSome_some, Bool.not_true, Bool.and_false, Bool.false_eq_true, if_false]
    rw [hmap]
    simp only [hreg]
    rw [show (taskUpdateRow pt now t0).id = pt.taskId from hid]

/-- C6 witness. -/
theorem unbound_identity_scoped_events_witness :
    regGet unboundState.connectedAgents "s9" = none ∧
    unboundState.db.tasks.find? (fun t => t.id = "t9") = some unboundTask ∧
    validTaskStatuses.contains "assigned" = true ∧
    (handleAgentStatusUpdate unboundState true "s9" 5
        { status := "busy", currentTask := none, errorMessage := none } =
      (unboundState, [Emit.toSocket "s9" "error" "Agent not registered"]) ∧
     handleAgentMessage unboundState "s9" "m1" 5
        { toAgentId := none, ctype := none, message := "hi", metadata := none,
          projectId := none, taskId := none } =
      (unboundState, [Emit.toSocket "s9" "error" "Agent not registered"]) ∧
     handleUserInputRequest unboundState true "s9" { context := none, question := none } =
      (unboundState, [Emit.toSocket "s9" "error" "Agent not registered"]) ∧
     (((handleTaskUpdate unboundState true "s9" 5
        { taskId := "t9", status := "assigned", progress := none, metadata := none }).1.db.tasks.find?
        (fun t => t.id = "t9")).map TaskRow.status) = some "assigned" ∧
     (handleTaskUpdate unboundState true "s9" 5
        { taskId := "t9", status := "assigned", progress := none, metadata := none }).2 =
      [Emit.broadcast "task_update" "updated" "t9"]) :=
  ⟨by decide, by decide, by decide,
    unbound_identity_scoped_events unboundState true "s9" "m1" 5
      { status := "busy", currentTask := none, errorMessage := none }
      { toAgentId := none, ctype := none, message := "hi", metadata := none,
        projectId := none, taskId := none }
      { context := none, question := none }
      { taskId := "t9", status := "assigned", progress := none, metadata := none }
      unboundTask (by decide) (by decide) (by decide)⟩

/-- A project at 40% progress whose two child tasks are both completed. -/
def progressProject : ProjectRow :=
  { id := "p1", name := "Dash", status := "active", progress := some 40,
    metadata := emptyJsonObject, updatedAt := 0 }

/-- First completed child task of `progressProject`. -/
def doneTask1 : TaskRow :=
  { id := "pt1", projectId := "p1", title := "A", status := "completed",
    startedAt := some 1, completedAt := some 2, metadata := emptyJsonObject, updatedAt := 2 }

/-- Second completed child task of `progressProject`. -/
def doneTask2 : TaskRow :=
  { id := "pt2", projectId := "p1", title := "B", status := "completed",
    startedAt := some 1, completedAt := some 3, metadata := emptyJsonObject, updatedAt := 3 }

/-- The store of the project-progress claim, as a `Db`. -/
def progressDb : Db :=
  { agents := [], projects := [progressProject], tasks := [doneTask1, doneTask2],
    communications := [] }

/-- Service state for the project-progress claim. -/
def progressState : ServiceState :=
  { db := progressDb, connectedAgents := [],
    messaging := { enabled := true, fallbackLog := [] } }

/-- C8 counterexample: a `project_update` to the terminal status `completed`
without an explicit progress value persists a NULL progress — although every
child task is completed (completion ratio 1) and the prior stored progress was
40 — so the persisted value is neither the recomputed ratio nor non-null. -/
theorem projectUpdate_progress_null_counterexample :
    (progressState.db.tasks.filter (fun t => t.projectId = "p1")).length = 2 ∧
    (progressState.db.tasks.filter (fun t => t.projectId = "p1")).all
      (fun t => t.status = "completed") = true ∧
    progressProject.progress = some 40 ∧
    (((handleProjectUpdate progressState true "s1" 7
        { projectId := "p1", status := "completed", progress := none, metadata := none }).1.db.projects.find?
        (fun pr => pr.id = "p1")).map ProjectRow.progress) = some none := by
  refine ⟨by decide, by decide, by decide, by decide⟩

/-- C8 amended: `handleProjectUpdate` persists exactly the payload's progress
value — NULL when the payload omits it, even when the status becomes terminal —
and never recomputes progress from child task completion. -/
theorem projectUpdate_persists_payload_progress
    (st : ServiceState) (deliveryOk : Bool) (socketId : String) (now : Int)
    (p : ProjectUpdatePayload) (pr0 : ProjectRow)
    (hfind : st.db.projects.find? (fun pr => pr.id = p.projectId) = some pr0)
    (hvalid : validProjectStatuses.contains p.status = true)
    (hprog : progressCheckOk p.progress = true) :
    (((handleProjectUpdate st deliveryOk socketId now p).1.db.projects.find?
        (fun pr => pr.id = p.projectId)).map ProjectRow.progress) = some p.progress := by
  have hmap := find?_map_ite (fun pr : ProjectRow => pr.id = p.projectId) (projectUpdateRow p now)
      (fun x hx => hx) st.db.projects pr0 hfind
  unfold handleProjectUpdate
  rw [hfind, hvalid, hprog]
  simp only [Option.isSome_some, Bool.not_true, Bool.or_self, Bool.true_and, Bool.and_false,
    Bool.false_eq_true, if_false]
  rw [hmap]
  dsimp only
  by_cases hst : p.status = "completed"
  · rw [if_pos hst]
    rw [hmap]
    rfl
  · rw [if_neg hst]
    rw [hmap]
    rfl

/-- C8 witness. -/
theorem projectUpdate_persists_payload_progress_witness :
    progressState.db.projects.find? (fun pr => pr.id = "p1") = some progressProject ∧
    validProjectStatuses.contains "completed" = true ∧
    progressCheckOk none = true ∧
    (((handleProjectUpdate progressState false "s1" 7
        { projectId := "p1", status := "completed", progress := none, metadata := none }).1.db.projects.find?
        (fun pr => pr.id = "p1")).map ProjectRow.progress) = some none :=
  ⟨by decide, by decide, by decide,
    projectUpdate_persists_payload_progress progressState false "s1" 7
      { projectId := "p1", status := "completed", progress := none, metadata := none }
      progressProject (by decide) (by decide) (by decide)⟩

/-- An entirely empty service state. -/
def emptyState : ServiceState :=
  { db := { agents := [], projects := [], tasks := [], communications := [] },
    connectedAgents := [],
    messaging := { enabled := true, fallbackLog := [] } }

/-- The registration payload naming agent identity `a`. -/
def registerA : RegisterPayload :=
  { id := some "a", name := "Alpha", agentType := "backend", capabilities := none }

/-- C3 counterexample: two `agent_register` events carrying the same identity
`a` from two different connections leave the registry with two simultaneous
bindings for that identity — the registry is keyed by socket id, so the later
registration does not replace the earlier one. -/
theorem registry_two_bindings_counterexample :
    (((handleAgentRegistration
        (handleAgentRegistration emptyState true "s1" "f1" 0 registerA).1
        true "s2" "f2" 1 registerA).1.connectedAgents.filter
        (fun q => q.2.agentId = "a")).length) = 2 := by
  decide

/-- C3 amended: the connection registry is keyed by connection (socket) id,
not identity: a successful registration binds exactly this connection's entry
(replacing the connection's previous binding, so keys stay unique — one
binding per connection), while bindings of the same identity from other
connections are untouched and may coexist. -/
theorem registration_last_write_wins_per_socket
    (st : ServiceState) (deliveryOk : Bool) (socketId fresh : String) (now : Int)
    (p : RegisterPayload)
    (hty : validAgentTypes.contains p.agentType = true)
    (hnd : (st.connectedAgents.map Prod.fst).Nodup) :
    regGet (handleAgentRegistration st deliveryOk socketId fresh now p).1.connectedAgents
        socketId =
      some (ConnectedAgent.mk socketId (p.id.getD fresh) p.name p.agentType now now) ∧
    (((handleAgentRegistration st deliveryOk socketId fresh now p).1.connectedAgents.map
        Prod.fst).Nodup) := by
  unfold handleAgentRegistration
  rw [hty]
  simp only [Bool.not_true, Bool.false_eq_true, if_false]
  exact ⟨regGet_regSet_self _ _ _, regSet_keys_nodup _ _ _ hnd⟩

/-- C3 witness. -/
theorem registration_last_write_wins_per_socket_witness :
    validAgentTypes.contains registerA.agentType = true ∧
    (emptyState.connectedAgents.map Prod.fst).Nodup ∧
    (regGet (handleAgentRegistration emptyState true "s1" "f1" 0 registerA).1.connectedAgents
        "s1" =
      some (ConnectedAgent.mk "s1" (registerA.id.getD "f1") registerA.name registerA.agentType
        0 0) ∧
     (((handleAgentRegistration emptyState true "s1" "f1" 0 registerA).1.connectedAgents.map
        Prod.fst).Nodup)) :=
  ⟨by decide, by decide,
    registration_last_write_wins_per_socket emptyState true "s1" "f1" 0 registerA
      (by decide) (by decide)⟩

/-- C4: when the external delivery mechanism fails, a `request_user_input`
event from a bound agent still completes successfully — the handler emits its
broadcast and no error envelope, the store is untouched — and exactly one
entry is appended to the messaging fallback log, which is capped at 50
entries, oldest evicted first. -/
theorem userInputRequest_fallback_bounded
    (st : ServiceState) (socketId : String) (p : UserInputPayload) (ca : ConnectedAgent)
    (hreg : regGet st.connectedAgents socketId = some ca)
    (hen : st.messaging.enabled = true)
    (hlen : st.messaging.fallbackLog.length ≤ 50) :
    (handleUserInputRequest st false socketId p).2.filter isErrorEmit = [] ∧
    Emit.broadcast "user_input_request" "" ca.agentId ∈
      (handleUserInputRequest st false socketId p).2 ∧
    (handleUserInputRequest st false socketId p).1.db = st.db ∧
    (handleUserInputRequest st false socketId p).1.messaging.fallbackLog =
      st.messaging.fallbackLog.drop (st.messaging.fallbackLog.length + 1 - 50) ++
        [markFallback (userInputNotification ((p.context).getD "Agent needs input")
          ((p.question).getD "Please provide guidance") (some ca.name))] ∧
    (handleUserInputRequest st false socketId p).1.messaging.fallbackLog.length =
      min (st.messaging.fallbackLog.length + 1) 50 := by
  have hspec := writeNotificationFile_spec st.messaging.fallbackLog
    (userInputNotification ((p.context).getD "Agent needs input")
      ((p.question).getD "Please provide guidance") (some ca.name)) hlen
  unfold handleUserInputRequest
  rw [hreg]
  unfold requestUserInput notifyUser
  rw [hen]
  dsimp only
  refine ⟨rfl, ?_, rfl, hspec.1, hspec.2⟩
  exact List.mem_cons_of_mem _ (List.mem_singleton.mpr rfl)

/-- C4 witness: with an empty fallback log and a failing delivery mechanism,
the event completes and the log afterwards holds exactly the one new entry. -/
theorem userInputRequest_fallback_bounded_witness :
    regGet staleState.connectedAgents "s1" = some staleCA ∧
    staleState.messaging.enabled = true ∧
    staleState.messaging.fallbackLog.length ≤ 50 ∧
    ((handleUserInputRequest staleState false "s1"
        { context := some "deploy", question := some "proceed?" }).2.filter isErrorEmit = [] ∧
     Emit.broadcast "user_input_request" "" staleCA.agentId ∈
      (handleUserInputRequest staleState false "s1"
        { context := some "deploy", question := some "proceed?" }).2 ∧
     (handleUserInputRequest staleState false "s1"
        { context := some "deploy", question := some "proceed?" }).1.db = staleState.db ∧
     (handleUserInputRequest staleState false "s1"
        { context := some "deploy", question := some "proceed?" }).1.messaging.fallbackLog =
      staleState.messaging.fallbackLog.drop (staleState.messaging.fallbackLog.length + 1 - 50) ++
        [markFallback (userInputNotification
          (((some "deploy" : Option String)).getD "Agent needs input")
          (((some "proceed?" : Option String)).getD "Please provide guidance")
          (some staleCA.name))] ∧
     (handleUserInputRequest staleState false "s1"
        { context := some "deploy", question := some "proceed?" }).1.messaging.fallbackLog.length =
      min (staleState.messaging.fallbackLog.length + 1) 50) :=
  ⟨by decide, by decide, by decide,
    userInputRequest_fallback_bounded staleState "s1"
      { context := some "deploy", question := some "proceed?" } staleCA
      (by decide) (by decide) (by decide)⟩

end PMDash
